import Mathlib

/-!
# Verification of `sbench` (src/sbench.cpp)

A shallow embedding of the single-file disk benchmark `sbench.cpp`:
argument parsing (`parseArgs`), the write phase (`doWrite`), the
cache-drop plus read phase (`doRead`), the deferred cleanup
(`runCleanup`, modelling the `Defer defer_RmOutfile` in `main`) and the
orchestrating `main`.

OS-level nondeterminism (the asynchronous `interrupted` flag, success or
failure of `open`/`write`/`flush`/`close`/`unlink`, the exit status of
the external `purge` command, the `fcntl(F_NOCACHE)` result, and the
chunk sizes the kernel chooses for `read`) is packaged in an `Env`
record.  Every read of the volatile `interrupted` flag consumes one tick
of an explicit clock, so signal-delivery timing is represented by the
Boolean trace `Env.intr : Nat → Bool` (monotone traces model a flag that
is set once and never cleared).

`size_t` arithmetic is `Nat` arithmetic taken modulo `2 ^ 64`.
-/

set_option autoImplicit false

namespace SBench

/-- `constexpr size_t MB = 1024*1024;` (sbench.cpp:18). -/
def MB : Nat := 1024 * 1024

/-- `constexpr size_t BUFSZ = MB;` (sbench.cpp:19). -/
def BUFSZ : Nat := MB

/-- Modulus of 64-bit `size_t` arithmetic. -/
def W64 : Nat := 2 ^ 64

/-- `struct Context` (sbench.cpp:24-31). -/
structure Context where
  outfile : String
  mb : Nat
  valid : Bool
  outfileCreated : Bool
deriving DecidableEq

/-- Which `return` site of the program produced the run's outcome.
One tag per distinct reported failure kind in the source. -/
inductive OutcomeK where
  | success
  | usage
  | badSize
  | writeErr
  | cacheDrop
  | readOpen
  | cacheDisable
  | readNoData
  | interrupted
deriving DecidableEq

/-- The exit code each return site uses in the source: `main` returns 1
on bad arguments (line 64), `doWrite` returns 2/3/99/0 (lines 156, 194,
198, 206), `doRead` returns the raw `purge` status, 10, 11, 99, 20, 0
(lines 103, 109, 122, 136, 144, 147). -/
def outcomeCode (e : Int) : OutcomeK → Int
  | .success => 0
  | .usage => 1
  | .badSize => 2
  | .writeErr => 3
  | .cacheDrop => e
  | .readOpen => 10
  | .cacheDisable => 11
  | .readNoData => 20
  | .interrupted => 99

/-- The OS-facing nondeterminism of one run. -/
structure Env where
  /-- value of the volatile `interrupted` flag at the t-th read of it -/
  intr : Nat → Bool
  /-- `ostrm.open` succeeds (sbench.cpp:165) -/
  openWriteOk : Bool
  /-- the i-th `ostrm.write` of a full buffer succeeds (sbench.cpp:187) -/
  writeOk : Nat → Bool
  /-- `ostrm.flush(); ostrm.close()` succeed (sbench.cpp:189-190) -/
  flushCloseOk : Bool
  /-- `unlink` of the output file succeeds (sbench.cpp:75) -/
  unlinkOk : Bool
  /-- status of `std::system("… purge")` (sbench.cpp:100) -/
  purgeRes : Int
  /-- `::open(…, O_RDONLY)` succeeds (sbench.cpp:106) -/
  openReadOk : Bool
  /-- result of `fcntl(fd, F_NOCACHE, 1)` (sbench.cpp:119) -/
  fcntlRes : Int
  /-- size the kernel would hand to the t-th `::read` call (clamped below) -/
  readChunk : Nat → Nat
  /-- the t-th `::read` call fails with a negative result -/
  readErr : Nat → Bool
  /-- bytes of the 1-MiB random buffer, by index (sbench.cpp:170-180) -/
  buf : Nat → Nat
  /-- the output file already exists before the run -/
  preExists : Bool

/-- A flag trace that, once set, stays set: the source's `interrupted`
is only ever assigned `true` (sbench.cpp:54). -/
def MonoFlag (f : Nat → Bool) : Prop :=
  ∀ i j, i ≤ j → f i = true → f j = true

/-- Value of a digit string, most significant first. -/
def digitsToNat (cs : List Char) : Nat :=
  cs.foldl (fun a c => a * 10 + (c.toNat - '0'.toNat)) 0

/-- Shared tail of `std::stol`: after optional whitespace and sign,
consume decimal digits; fail if there are none or the value leaves the
range of `long`.  Returns the value and the index one past the last
consumed character. -/
def stolCore (r : List Char) (consumed : Nat) (neg : Bool) : Option (Int × Nat) :=
  let digs := r.takeWhile Char.isDigit
  if digs.length = 0 then none
  else
    let v : Int := (if neg then -1 else 1) * (digitsToNat digs : Int)
    if v < -(2 ^ 63) ∨ (2 ^ 63 - 1 : Int) < v then none
    else some (v, consumed + digs.length)

/-- Model of `std::stol(s, &pos)` as used at sbench.cpp:245: `none`
when it would throw (`invalid_argument` or `out_of_range`; both are
caught by the same handler at line 251). -/
def stol (s : String) : Option (Int × Nat) :=
  let cs := s.data
  let wsn := (cs.takeWhile Char.isWhitespace).length
  match cs.drop wsn with
  | '-' :: r => stolCore r (wsn + 1) true
  | '+' :: r => stolCore r (wsn + 1) false
  | r => stolCore r wsn false

/-- Result of `parseArgs`, together with the trace of `usage(...)`
calls it made (the Boolean is the `showBanner` argument). -/
structure ParseResult where
  ctx : Context
  usageCalls : List Bool

/-- `parseArgs` (sbench.cpp:209-263).  `argv` is the full argument
vector including `argv[0]`. -/
def parseArgs (argv : List String) : ParseResult :=
  match argv with
  | _prog :: out :: rest =>
    let p : Context := { outfile := out, mb := 2 * 1024, valid := false, outfileCreated := false }
    if out.length = 0 ∨ out.data.head? = some '-' then
      { ctx := p, usageCalls := [true] }
    else
      match rest with
      | [] => { ctx := { p with valid := true }, usageCalls := [] }
      | sizeStr :: _ =>
        match stol sizeStr with
        | none => { ctx := p, usageCalls := [false] }
        | some (v, pos) =>
          if v ≤ 0 then { ctx := p, usageCalls := [false] }
          else if pos < sizeStr.length then { ctx := p, usageCalls := [false] }
          else { ctx := { p with mb := v.toNat, valid := true }, usageCalls := [] }
  | _ =>
    { ctx := { outfile := "", mb := 2 * 1024, valid := false, outfileCreated := false },
      usageCalls := [true] }

/-- The write loop `for (size_t i = 0; i < N/BUFSZ && !interrupted; ++i)
ostrm.write(buf.get(), BUFSZ);` (sbench.cpp:186-188).  `m` is the number
of iterations left, `w` the buffers written so far, `clock` the next
flag-observation tick.  Returns (buffers written, clock, write failed).
The flag is read once per iteration; when the iteration bound is
exhausted the `&&` short-circuits and the flag is not read. -/
def writeLoop (intr wOk : Nat → Bool) : Nat → Nat → Nat → Nat × Nat × Bool
  | 0, w, clock => (w, clock, false)
  | m + 1, w, clock =>
    if intr clock then (w, clock + 1, false)
    else if wOk w then writeLoop intr wOk m (w + 1) (clock + 1)
    else (w, clock + 1, true)

/-- Observable result of `doWrite`. -/
structure WriteOut where
  code : Int
  outcome : OutcomeK
  ctx : Context
  clock : Nat
  written : Nat
  fileExists : Bool
  opened : Bool

/-- `doWrite` (sbench.cpp:150-207).  `N = p.mb * MB` is computed in
`size_t`, hence modulo `2 ^ 64`.  A failed `open` leaves
`outfileCreated` unset (the throw happens before line 166); any later
failure returns 3 with the file in place.  On the success path the
`if (interrupted)` at line 197 reads the flag one more time. -/
def doWrite (e : Env) (p : Context) (clock : Nat) : WriteOut :=
  let N := p.mb * MB % W64
  if N < BUFSZ then
    { code := 2, outcome := .badSize, ctx := p, clock := clock, written := 0,
      fileExists := e.preExists, opened := false }
  else if e.openWriteOk = false then
    { code := 3, outcome := .writeErr, ctx := p, clock := clock, written := 0,
      fileExists := e.preExists, opened := false }
  else
    let p' := { p with outfileCreated := true }
    let res := writeLoop e.intr e.writeOk (N / BUFSZ) 0 clock
    if res.2.2 then
      { code := 3, outcome := .writeErr, ctx := p', clock := res.2.1, written := res.1,
        fileExists := true, opened := true }
    else if e.flushCloseOk = false then
      { code := 3, outcome := .writeErr, ctx := p', clock := res.2.1, written := res.1,
        fileExists := true, opened := true }
    else if e.intr res.2.1 then
      { code := 99, outcome := .interrupted, ctx := p', clock := res.2.1 + 1, written := res.1,
        fileExists := true, opened := true }
    else
      { code := 0, outcome := .success, ctx := p', clock := res.2.1 + 1, written := res.1,
        fileExists := true, opened := true }

/-- The read loop `while ((nread = ::read(fd, buf.get(), BUFSZ)) > 0 &&
!interrupted) count += nread;` (sbench.cpp:131-133).  `rem` is the
number of file bytes past the current offset `pos`, `t` the index of
the next `read` call, `acc` the bytes accumulated into `count` so far.
A `read` on a regular file returns `min(BUFSZ, rem)` bytes, or fewer at
the kernel's whim (`chunk`, clamped to at least 1), or 0 at end of
file, or a negative value on error; the `&&` short-circuits so the flag
is only read after a positive `read`.  When the flag is observed true
the bytes of that last `read` are not added to `count`.  The structural
`fuel` argument only bounds the iteration count; every iteration
consumes at least one of the `rem` bytes, so any `fuel ≥ rem` (the
caller passes `fuel = rem`) makes the bound unreachable. -/
def readLoop (intr rErr : Nat → Bool) (chunk : Nat → Nat) (content : Nat → Nat) :
    Nat → Nat → Nat → Nat → Nat → Nat → List Nat → Nat × List Nat × Nat
  | 0, _, _, _, clock, count, acc => (count, acc, clock)
  | fuel + 1, rem, pos, t, clock, count, acc =>
    if rem = 0 then (count, acc, clock)
    else if rErr t then (count, acc, clock)
    else
      let n := min (max 1 (chunk t)) (min BUFSZ rem)
      if intr clock then (count, acc, clock + 1)
      else readLoop intr rErr chunk content fuel (rem - n) (pos + n) (t + 1) (clock + 1)
        (count + n) (acc ++ (List.range n).map (fun j => content (pos + j)))

/-- Observable result of `doRead`. -/
structure ReadOut where
  code : Int
  outcome : OutcomeK
  clock : Nat
  count : Nat
  dataRead : List Nat
  opened : Bool

/-- `doRead` (sbench.cpp:96-148): run `purge` and propagate a nonzero
status; open read-only (10 on failure); `fcntl(F_NOCACHE)` (11 on a
nonzero result); run the read loop over the file's `len` bytes; then
the `if (interrupted)` at line 135 reads the flag once more; a zero
`count` is error 20, otherwise success. -/
def doRead (e : Env) (clock len : Nat) (content : Nat → Nat) : ReadOut :=
  if e.purgeRes ≠ 0 then
    { code := e.purgeRes, outcome := .cacheDrop, clock := clock, count := 0,
      dataRead := [], opened := false }
  else if e.openReadOk = false then
    { code := 10, outcome := .readOpen, clock := clock, count := 0,
      dataRead := [], opened := false }
  else if e.fcntlRes ≠ 0 then
    { code := 11, outcome := .cacheDisable, clock := clock, count := 0,
      dataRead := [], opened := true }
  else
    let res := readLoop e.intr e.readErr e.readChunk content len len 0 0 clock 0 []
    if e.intr res.2.2 then
      { code := 99, outcome := .interrupted, clock := res.2.2 + 1, count := res.1,
        dataRead := res.2.1, opened := true }
    else if res.1 ≠ 0 then
      { code := 0, outcome := .success, clock := res.2.2 + 1, count := res.1,
        dataRead := res.2.1, opened := true }
    else
      { code := 20, outcome := .readNoData, clock := res.2.2 + 1, count := res.1,
        dataRead := res.2.1, opened := true }

/-- Observable result of the deferred cleanup. -/
structure CleanupOut where
  ctx : Context
  fileExists : Bool
  failMsg : Bool

/-- The `Defer defer_RmOutfile` action (sbench.cpp:73-82): if the file
was created, `unlink` it; on failure print to `cerr` and leave
`outfileCreated` set, on success clear it. -/
def runCleanup (e : Env) (p : Context) (fileExists : Bool) : CleanupOut :=
  if p.outfileCreated then
    if e.unlinkOk then { ctx := { p with outfileCreated := false }, fileExists := false, failMsg := false }
    else { ctx := p, fileExists := fileExists, failMsg := true }
  else { ctx := p, fileExists := fileExists, failMsg := false }

/-- Byte `i` of the file after `k` copies of the random buffer were
written: the buffer is written unchanged every iteration. -/
def contentFn (e : Env) : Nat → Nat := fun i => e.buf (i % BUFSZ)

/-- The byte sequence `doWrite` put in the file when it wrote `k` full
buffers. -/
def writtenBytes (e : Env) (k : Nat) : List Nat :=
  (List.range (k * BUFSZ)).map (contentFn e)

/-- Observable result of one whole run of the program. -/
structure RunResult where
  exitCode : Int
  outcome : OutcomeK
  fileCreated : Bool
  openedWrite : Bool
  openedRead : Bool
  purgeInvoked : Bool
  fileExists : Bool
  cleanupFailMsg : Bool
  cleanupRuns : Nat
  written : Nat
  readCount : Nat
  dataRead : List Nat
  finalCtx : Context

/-- `main` (sbench.cpp:59-91): parse, return 1 if invalid (before the
`Defer` is armed); otherwise arm the cleanup guard, run `doWrite`,
propagate a nonzero result, else run `doRead` and propagate its result.
The guard's action runs exactly once on every path after it is armed,
and its outcome never changes the exit code. -/
def main (e : Env) (argv : List String) : RunResult :=
  let p := (parseArgs argv).ctx
  if p.valid = false then
    { exitCode := 1, outcome := .usage, fileCreated := false, openedWrite := false,
      openedRead := false, purgeInvoked := false, fileExists := e.preExists,
      cleanupFailMsg := false, cleanupRuns := 0, written := 0, readCount := 0,
      dataRead := [], finalCtx := p }
  else
    let w := doWrite e p 0
    if w.code ≠ 0 then
      let c := runCleanup e w.ctx w.fileExists
      { exitCode := w.code, outcome := w.outcome, fileCreated := w.ctx.outfileCreated,
        openedWrite := w.opened, openedRead := false, purgeInvoked := false,
        fileExists := c.fileExists, cleanupFailMsg := c.failMsg, cleanupRuns := 1,
        written := w.written, readCount := 0, dataRead := [], finalCtx := c.ctx }
    else
      let r := doRead e w.clock (w.written * BUFSZ) (contentFn e)
      let c := runCleanup e w.ctx w.fileExists
      { exitCode := r.code, outcome := r.outcome, fileCreated := w.ctx.outfileCreated,
        openedWrite := w.opened, openedRead := r.opened, purgeInvoked := true,
        fileExists := c.fileExists, cleanupFailMsg := c.failMsg, cleanupRuns := 1,
        written := w.written, readCount := r.count, dataRead := r.dataRead, finalCtx := c.ctx }

/-- An environment in which every OS interaction succeeds and no signal
ever arrives. -/
def envOk : Env where
  intr := fun _ => false
  openWriteOk := true
  writeOk := fun _ => true
  flushCloseOk := true
  unlinkOk := true
  purgeRes := 0
  openReadOk := true
  fcntlRes := 0
  readChunk := fun _ => BUFSZ
  readErr := fun _ => false
  buf := fun _ => 0
  preExists := false

/-- A run that performed no I/O at all: nothing created or opened, no
subprocess, the file system as it was. -/
def NoIO (e : Env) (r : RunResult) : Prop :=
  r.fileCreated = false ∧ r.openedWrite = false ∧ r.openedRead = false ∧
    r.purgeInvoked = false ∧ r.fileExists = e.preExists

/-! ## Helper lemmas -/

theorem bufsz_pos : 0 < BUFSZ := by decide

theorem parseArgs_outfileCreated (argv : List String) :
    (parseArgs argv).ctx.outfileCreated = false := by
  rcases argv with _ | ⟨prog, argv⟩
  · rfl
  rcases argv with _ | ⟨out, rest⟩
  · rfl
  rcases rest with _ | ⟨s, rest⟩
  · by_cases h : out.length = 0 ∨ out.data.head? = some '-' <;> simp [parseArgs, h]
  · by_cases h : out.length = 0 ∨ out.data.head? = some '-'
    · simp [parseArgs, h]
    · rcases hs : stol s with _ | ⟨v, pos⟩
      · simp [parseArgs, h, hs]
      · by_cases hv : v ≤ 0
        · simp [parseArgs, h, hs, hv]
        · by_cases hp : pos < s.length <;> simp [parseArgs, h, hs, hv, hp]

theorem range_map_split (f : Nat → Nat) (pos a b : Nat) :
    (List.range (a + b)).map (fun j => f (pos + j)) =
      (List.range a).map (fun j => f (pos + j)) ++
        (List.range b).map (fun j => f (pos + a + j)) := by
  rw [List.range_add, List.map_append, List.map_map]
  congr 1
  apply List.map_congr_left
  intro j _
  simp [Function.comp, Nat.add_assoc]

theorem writeLoop_ok_no_intr (intr wOk : Nat → Bool)
    (hi : ∀ t, intr t = false) (hw : ∀ i, wOk i = true) :
    ∀ m w clock, writeLoop intr wOk m w clock = (w + m, clock + m, false) := by
  intro m
  induction m with
  | zero => intro w clock; simp [writeLoop]
  | succ m ih =>
    intro w clock
    simp [writeLoop, hi, hw, ih, Prod.mk.injEq]
    omega

theorem writeLoop_no_err (intr wOk : Nat → Bool) (hw : ∀ i, wOk i = true) :
    ∀ m w clock, (writeLoop intr wOk m w clock).2.2 = false := by
  intro m
  induction m with
  | zero => intro w clock; simp [writeLoop]
  | succ m ih =>
    intro w clock
    by_cases hc : intr clock = true <;> simp [writeLoop, hc, hw w, ih]

theorem writeLoop_full_of_mono (intr wOk : Nat → Bool) (hmono : MonoFlag intr)
    (hw : ∀ i, wOk i = true) :
    ∀ m w clock, intr (writeLoop intr wOk m w clock).2.1 = false →
      (writeLoop intr wOk m w clock).1 = w + m := by
  intro m
  induction m with
  | zero => intro w clock _; simp [writeLoop]
  | succ m ih =>
    intro w clock hend
    by_cases hc : intr clock = true
    · exfalso
      simp only [writeLoop, hc, ite_true] at hend
      exact absurd (hmono clock (clock + 1) (Nat.le_succ clock) hc) (by simp [hend])
    · simp only [writeLoop, hc, ite_false, Bool.false_eq_true, hw w, ite_true] at hend ⊢
      rw [ih (w + 1) (clock + 1) hend]
      omega

theorem writeLoop_intr_bound (intr wOk : Nat → Bool) (hmono : MonoFlag intr)
    (hw : ∀ i, wOk i = true) :
    ∀ m k w clock, intr (clock + k) = true → k ≤ m →
      (writeLoop intr wOk m w clock).1 ≤ w + k ∧
        intr (writeLoop intr wOk m w clock).2.1 = true := by
  intro m
  induction m with
  | zero =>
    intro k w clock hk hkm
    have hk0 : k = 0 := Nat.le_antisymm hkm (Nat.zero_le k)
    subst hk0
    simpa [writeLoop] using hk
  | succ m ih =>
    intro k w clock hk hkm
    by_cases hc : intr clock = true
    · refine ⟨?_, ?_⟩ <;> simp only [writeLoop, hc, ite_true]
      · exact Nat.le_add_right w k
      · exact hmono clock (clock + 1) (Nat.le_succ clock) hc
    · rcases k with _ | k
      · exact absurd (by simpa using hk) hc
      · have hk' : intr (clock + 1 + k) = true := by
          have : clock + 1 + k = clock + (k + 1) := by omega
          rw [this]; exact hk
        obtain ⟨h1, h2⟩ := ih k (w + 1) (clock + 1) hk' (Nat.succ_le_succ_iff.mp hkm)
        refine ⟨?_, ?_⟩ <;>
          simp only [writeLoop, hc, ite_false, Bool.false_eq_true, hw w, ite_true]
        · omega
        · exact h2

theorem readLoop_all (intr rErr : Nat → Bool) (chunk : Nat → Nat) (content : Nat → Nat)
    (hi : ∀ t, intr t = false) (he : ∀ t, rErr t = false) :
    ∀ fuel rem pos t clock count acc, rem ≤ fuel →
      (readLoop intr rErr chunk content fuel rem pos t clock count acc).1 = count + rem ∧
        (readLoop intr rErr chunk content fuel rem pos t clock count acc).2.1 =
          acc ++ (List.range rem).map (fun j => content (pos + j)) := by
  intro fuel
  induction fuel with
  | zero =>
    intro rem pos t clock count acc hle
    have h0 : rem = 0 := Nat.le_zero.mp hle
    subst h0
    simp [readLoop]
  | succ fuel ih =>
    intro rem pos t clock count acc hle
    by_cases h0 : rem = 0
    · subst h0; simp [readLoop]
    · have hB : 0 < BUFSZ := bufsz_pos
      simp only [readLoop, h0, ite_false, he t, hi clock, Bool.false_eq_true]
      set n := min (max 1 (chunk t)) (min BUFSZ rem) with hn
      have hn1 : 1 ≤ n := by
        apply le_min (le_max_left 1 (chunk t))
        exact le_min hB (Nat.one_le_iff_ne_zero.mpr h0)
      have hnr : n ≤ rem := le_trans (min_le_right _ _) (min_le_right BUFSZ rem)
      obtain ⟨ih1, ih2⟩ := ih (rem - n) (pos + n) (t + 1) (clock + 1) (count + n)
        (acc ++ (List.range n).map (fun j => content (pos + j))) (by omega)
      refine ⟨by rw [ih1]; omega, ?_⟩
      rw [ih2, List.append_assoc]
      congr 1
      have hsplit := range_map_split content pos n (rem - n)
      rw [Nat.add_sub_cancel' hnr] at hsplit
      rw [hsplit]

theorem doWrite_all_ok (e : Env) (p : Context) (clock : Nat)
    (hi : ∀ t, e.intr t = false) (hopen : e.openWriteOk = true)
    (hw : ∀ i, e.writeOk i = true) (hfc : e.flushCloseOk = true)
    (hN : BUFSZ ≤ p.mb * MB % W64) :
    doWrite e p clock =
      { code := 0, outcome := .success, ctx := { p with outfileCreated := true },
        clock := clock + p.mb * MB % W64 / BUFSZ + 1,
        written := p.mb * MB % W64 / BUFSZ, fileExists := true, opened := true } := by
  have hlt : ¬ p.mb * MB % W64 < BUFSZ := Nat.not_lt.mpr hN
  simp [doWrite, hlt, hopen, hfc, hi, writeLoop_ok_no_intr e.intr e.writeOk hi hw]

theorem doWrite_code_zero_written (e : Env) (p : Context) (clock : Nat)
    (hmono : MonoFlag e.intr) (hw : ∀ i, e.writeOk i = true)
    (hcode : (doWrite e p clock).code = 0) :
    (doWrite e p clock).written = p.mb * MB % W64 / BUFSZ := by
  by_cases hlt : p.mb * MB % W64 < BUFSZ
  · simp [doWrite, hlt] at hcode
  by_cases hopen : e.openWriteOk = false
  · simp [doWrite, hlt, hopen] at hcode
  have herr := writeLoop_no_err e.intr e.writeOk hw (p.mb * MB % W64 / BUFSZ) 0 clock
  by_cases hfc : e.flushCloseOk = false
  · simp [doWrite, hlt, hopen, herr, hfc] at hcode
  by_cases hend : e.intr (writeLoop e.intr e.writeOk (p.mb * MB % W64 / BUFSZ) 0 clock).2.1 = true
  · simp [doWrite, hlt, hopen, herr, hfc, hend] at hcode
  · have hfull := writeLoop_full_of_mono e.intr e.writeOk hmono hw
      (p.mb * MB % W64 / BUFSZ) 0 clock (by simpa using hend)
    simp [doWrite, hlt, hopen, herr, hfc, hend, hfull]

theorem doWrite_interrupted (e : Env) (p : Context) (k : Nat)
    (hmono : MonoFlag e.intr) (hintr : e.intr k = true)
    (hkm : k ≤ p.mb * MB % W64 / BUFSZ)
    (hopen : e.openWriteOk = true) (hw : ∀ i, e.writeOk i = true)
    (hfc : e.flushCloseOk = true) (hN : BUFSZ ≤ p.mb * MB % W64) :
    (doWrite e p 0).code = 99 ∧ (doWrite e p 0).outcome = .interrupted ∧
      (doWrite e p 0).written ≤ k ∧
      (doWrite e p 0).ctx.outfileCreated = true ∧ (doWrite e p 0).fileExists = true := by
  have hlt : ¬ p.mb * MB % W64 < BUFSZ := Nat.not_lt.mpr hN
  have herr := writeLoop_no_err e.intr e.writeOk hw (p.mb * MB % W64 / BUFSZ) 0 0
  obtain ⟨hbound, hend⟩ := writeLoop_intr_bound e.intr e.writeOk hmono hw
    (p.mb * MB % W64 / BUFSZ) k 0 0 (by simpa using hintr) hkm
  refine ⟨?_, ?_, ?_, ?_, ?_⟩ <;> simp [doWrite, hlt, hopen, hfc, herr, hend]
  simpa using hbound

theorem doWrite_badSize (e : Env) (p : Context) (clock : Nat)
    (hlt : p.mb * MB % W64 < BUFSZ) :
    doWrite e p clock =
      { code := 2, outcome := .badSize, ctx := p, clock := clock, written := 0,
        fileExists := e.preExists, opened := false } := by
  simp [doWrite, hlt]

theorem doWrite_shape (e : Env) (p : Context) (clock : Nat) (x : Int) :
    ((doWrite e p clock).code = outcomeCode x (doWrite e p clock).outcome) ∧
      ((doWrite e p clock).outcome = .badSize ∨ (doWrite e p clock).outcome = .writeErr ∨
        (doWrite e p clock).outcome = .interrupted ∨
        (doWrite e p clock).outcome = .success) := by
  by_cases hlt : p.mb * MB % W64 < BUFSZ
  · simp [doWrite, hlt, outcomeCode]
  by_cases hopen : e.openWriteOk = false
  · simp [doWrite, hlt, hopen, outcomeCode]
  by_cases herr : (writeLoop e.intr e.writeOk (p.mb * MB % W64 / BUFSZ) 0 clock).2.2 = true
  · simp [doWrite, hlt, hopen, herr, outcomeCode]
  by_cases hfc : e.flushCloseOk = false
  · simp [doWrite, hlt, hopen, herr, hfc, outcomeCode]
  by_cases hend : e.intr (writeLoop e.intr e.writeOk (p.mb * MB % W64 / BUFSZ) 0 clock).2.1 = true
  · simp [doWrite, hlt, hopen, herr, hfc, hend, outcomeCode]
  · simp [doWrite, hlt, hopen, herr, hfc, hend, outcomeCode]

theorem doWrite_created (e : Env) (p : Context) (clock : Nat)
    (hp : p.outfileCreated = false)
    (h : (doWrite e p clock).ctx.outfileCreated = true) :
    (doWrite e p clock).fileExists = true ∧ (doWrite e p clock).opened = true := by
  by_cases hlt : p.mb * MB % W64 < BUFSZ
  · simp [doWrite, hlt, hp] at h
  by_cases hopen : e.openWriteOk = false
  · simp [doWrite, hlt, hopen, hp] at h
  by_cases herr : (writeLoop e.intr e.writeOk (p.mb * MB % W64 / BUFSZ) 0 clock).2.2 = true
  · simp [doWrite, hlt, hopen, herr]
  by_cases hfc : e.flushCloseOk = false
  · simp [doWrite, hlt, hopen, herr, hfc]
  by_cases hend : e.intr (writeLoop e.intr e.writeOk (p.mb * MB % W64 / BUFSZ) 0 clock).2.1 = true
  · simp [doWrite, hlt, hopen, herr, hfc, hend]
  · simp [doWrite, hlt, hopen, herr, hfc, hend]

theorem doRead_all_ok (e : Env) (clock len : Nat) (content : Nat → Nat)
    (hi : ∀ t, e.intr t = false) (hp : e.purgeRes = 0) (ho : e.openReadOk = true)
    (hf : e.fcntlRes = 0) (he : ∀ t, e.readErr t = false) (hlen : len ≠ 0) :
    (doRead e clock len content).code = 0 ∧ (doRead e clock len content).count = len ∧
      (doRead e clock len content).dataRead = (List.range len).map content := by
  obtain ⟨h1, h2⟩ := readLoop_all e.intr e.readErr e.readChunk content hi he
    len len 0 0 clock 0 [] (Nat.le_refl len)
  have hmap : (List.range len).map (fun j => content (0 + j)) = (List.range len).map content := by
    apply List.map_congr_left
    intro j _
    simp
  refine ⟨?_, ?_, ?_⟩ <;> simp [doRead, hp, ho, hf, hi, h1, h2, hlen, hmap]

theorem doRead_shape (e : Env) (clock len : Nat) (content : Nat → Nat) :
    ((doRead e clock len content).code =
        outcomeCode e.purgeRes (doRead e clock len content).outcome) ∧
      ((doRead e clock len content).outcome = .cacheDrop ∨
        (doRead e clock len content).outcome = .readOpen ∨
        (doRead e clock len content).outcome = .cacheDisable ∨
        (doRead e clock len content).outcome = .interrupted ∨
        (doRead e clock len content).outcome = .success ∨
        (doRead e clock len content).outcome = .readNoData) := by
  by_cases hp : e.purgeRes ≠ 0
  · simp [doRead, hp, outcomeCode]
  by_cases ho : e.openReadOk = false
  · simp [doRead, hp, ho, outcomeCode]
  by_cases hf : e.fcntlRes ≠ 0
  · simp [doRead, hp, ho, hf, outcomeCode]
  by_cases hend :
      e.intr (readLoop e.intr e.readErr e.readChunk content len len 0 0 clock 0 []).2.2 = true
  · simp [doRead, hp, ho, hf, hend, outcomeCode]
  by_cases hcount : (readLoop e.intr e.readErr e.readChunk content len len 0 0 clock 0 []).1 ≠ 0
  · simp [doRead, hp, ho, hf, hend, hcount, outcomeCode]
  · simp [doRead, hp, ho, hf, hend, hcount, outcomeCode]

theorem main_exit_unlink_irrel (e : Env) (b : Bool) (argv : List String) :
    (main { e with unlinkOk := b } argv).exitCode = (main e argv).exitCode := by
  by_cases hv : (parseArgs argv).ctx.valid = false
  · simp [main, hv]
  · have hW : doWrite { e with unlinkOk := b } (parseArgs argv).ctx 0 =
        doWrite e (parseArgs argv).ctx 0 := rfl
    have hR : ∀ c l ct, doRead { e with unlinkOk := b } c l ct = doRead e c l ct :=
      fun _ _ _ => rfl
    have hC : contentFn { e with unlinkOk := b } = contentFn e := rfl
    simp only [main, hv, hW, hR, hC, Bool.false_eq_true, ite_false]
    by_cases hc : (doWrite e (parseArgs argv).ctx 0).code = 0 <;> simp [hc]

theorem doRead_opened (e : Env) (clock len : Nat) (content : Nat → Nat) :
    (doRead e clock len content).opened = (decide (e.purgeRes = 0) && e.openReadOk) := by
  by_cases hp : e.purgeRes ≠ 0
  · simp [doRead, hp]
  by_cases ho : e.openReadOk = false
  · simp [doRead, hp, ho]
  by_cases hf : e.fcntlRes ≠ 0
  · simp [doRead, hp, ho, hf]
    simp at ho hp
    simp [hp, ho]
  by_cases hend :
      e.intr (readLoop e.intr e.readErr e.readChunk content len len 0 0 clock 0 []).2.2 = true
  · simp [doRead, hp, ho, hf, hend]
    simp at ho hp
    simp [hp, ho]
  by_cases hcount : (readLoop e.intr e.readErr e.readChunk content len len 0 0 clock 0 []).1 ≠ 0 <;>
    · simp [doRead, hp, ho, hf, hend, hcount]
      simp at ho hp
      simp [hp, ho]

theorem doRead_purge_fail (e : Env) (clock len : Nat) (content : Nat → Nat)
    (hp : e.purgeRes ≠ 0) :
    (doRead e clock len content).code = e.purgeRes ∧
      (doRead e clock len content).opened = false := by
  simp [doRead, hp]

/-! ## The claims -/

/-- C10: the write phase computes the byte total as `sizeMB * 2^20` in
64-bit `size_t` arithmetic, so positive sizes accepted by parsing can
wrap: `sizeMB = 2^44` parses as a valid positive size, its total wraps
to 0, and the run is rejected with exit code 2; `sizeMB = 2^44 + 1`
completes successfully but writes a single 1-MiB buffer instead of the
`2^44 + 1` MiB requested. -/
theorem claim_C10 :
    (parseArgs ["sbench", "f", "17592186044416"]).ctx.valid = true
    ∧ (parseArgs ["sbench", "f", "17592186044416"]).ctx.mb = 2 ^ 44
    ∧ 2 ^ 44 * MB % W64 = 0
    ∧ (main envOk ["sbench", "f", "17592186044416"]).exitCode = 2
    ∧ (main envOk ["sbench", "f", "17592186044416"]).outcome = OutcomeK.badSize
    ∧ (doWrite envOk { outfile := "f", mb := 2 ^ 44 + 1, valid := true, outfileCreated := false }
        0).code = 0
    ∧ (doWrite envOk { outfile := "f", mb := 2 ^ 44 + 1, valid := true, outfileCreated := false }
        0).written = 1
    ∧ (2 ^ 44 + 1) * MB / BUFSZ = 2 ^ 44 + 1
    ∧ (1 : Nat) ≠ 2 ^ 44 + 1 := by
  refine ⟨by decide, by decide, by decide, by decide, by decide, by decide, by decide,
    by decide, by decide⟩

/-- C6: a configuration whose `size_t` byte total is below one buffer
makes the run fail with the invalid-size outcome (exit 2, distinct from
the usage outcome), before any I/O: nothing is opened, `outfileCreated`
stays false, and (when it did not pre-exist) the output file does not
exist after the run. -/
theorem claim_C6 (e : Env) (argv : List String)
    (hvalid : (parseArgs argv).ctx.valid = true)
    (hsmall : (parseArgs argv).ctx.mb * MB % W64 < BUFSZ)
    (hpre : e.preExists = false) :
    (main e argv).exitCode = 2
    ∧ (main e argv).outcome = OutcomeK.badSize
    ∧ (main e argv).outcome ≠ OutcomeK.usage
    ∧ (main e argv).fileCreated = false
    ∧ (main e argv).openedWrite = false
    ∧ (main e argv).openedRead = false
    ∧ (main e argv).purgeInvoked = false
    ∧ (main e argv).fileExists = false := by
  have hbs := doWrite_badSize e (parseArgs argv).ctx 0 hsmall
  have hoc := parseArgs_outfileCreated argv
  refine ⟨?_, ?_, ?_, ?_, ?_, ?_, ?_, ?_⟩ <;>
    simp [main, hvalid, hbs, runCleanup, hoc, hpre]

/-- C6 witness: `sizeMB = 2^44` wraps to a 0-byte total, which is below
one buffer. -/
theorem claim_C6_witness :
    (main envOk ["sbench", "f", "17592186044416"]).exitCode = 2
    ∧ (main envOk ["sbench", "f", "17592186044416"]).outcome = OutcomeK.badSize
    ∧ (main envOk ["sbench", "f", "17592186044416"]).outcome ≠ OutcomeK.usage
    ∧ (main envOk ["sbench", "f", "17592186044416"]).fileCreated = false
    ∧ (main envOk ["sbench", "f", "17592186044416"]).openedWrite = false
    ∧ (main envOk ["sbench", "f", "17592186044416"]).openedRead = false
    ∧ (main envOk ["sbench", "f", "17592186044416"]).purgeInvoked = false
    ∧ (main envOk ["sbench", "f", "17592186044416"]).fileExists = false :=
  claim_C6 envOk ["sbench", "f", "17592186044416"] (by decide) (by decide) (by decide)

/-- C8: invoking with fewer than two argv entries (no path argument),
or with an output path that is empty or begins with a dash, exits with
code 1 at the usage return site, with nothing created, opened or
spawned. -/
theorem claim_C8 (e : Env) (argv : List String)
    (h : argv.length < 2 ∨
      ∃ prog out rest, argv = prog :: out :: rest ∧
        (out.length = 0 ∨ out.data.head? = some '-')) :
    (main e argv).exitCode = 1
    ∧ (main e argv).outcome = OutcomeK.usage
    ∧ (main e argv).cleanupRuns = 0
    ∧ NoIO e (main e argv) := by
  have hinv : (parseArgs argv).ctx.valid = false := by
    rcases h with h | ⟨prog, out, rest, rfl, hbad⟩
    · rcases argv with _ | ⟨a, argv⟩
      · rfl
      rcases argv with _ | ⟨b, argv⟩
      · rfl
      · exact absurd h (by simp)
    · simp [parseArgs, hbad]
  refine ⟨?_, ?_, ?_, ?_, ?_, ?_, ?_, ?_⟩ <;> simp [main, hinv, NoIO]

/-- C8 witness: the empty argument vector. -/
theorem claim_C8_witness :
    (main envOk []).exitCode = 1
    ∧ (main envOk []).outcome = OutcomeK.usage
    ∧ (main envOk []).cleanupRuns = 0
    ∧ NoIO envOk (main envOk []) :=
  claim_C8 envOk [] (Or.inl (by decide))

/-- C9: with the size argument omitted the configuration defaults to
2048 MB and is valid; a size argument that fails to parse, parses to a
non-positive value, or has trailing characters makes parsing fail with
`usage(false)` (no banner) and the run exit 1 with no I/O; and this
exit code differs from the exit code 2 of a parsed-but-too-small
size. -/
theorem claim_C9 (e : Env) (prog out s : String) (rest : List String)
    (hlen : out.length ≠ 0) (hdash : out.data.head? ≠ some '-')
    (hbad : stol s = none ∨
      ∃ v pos, stol s = some (v, pos) ∧ (v ≤ 0 ∨ pos < s.length)) :
    ((parseArgs [prog, out]).ctx.mb = 2048 ∧ (parseArgs [prog, out]).ctx.valid = true)
    ∧ ((parseArgs (prog :: out :: s :: rest)).ctx.valid = false
        ∧ (parseArgs (prog :: out :: s :: rest)).usageCalls = [false]
        ∧ (main e (prog :: out :: s :: rest)).exitCode = 1
        ∧ NoIO e (main e (prog :: out :: s :: rest)))
    ∧ ((main envOk ["sbench", "f", "abc"]).exitCode = 1
        ∧ (main envOk ["sbench", "f", "17592186044416"]).exitCode = 2
        ∧ (1 : Int) ≠ 2) := by
  have hcond : ¬ (out.length = 0 ∨ out.data.head? = some '-') := not_or.mpr ⟨hlen, hdash⟩
  have hinv : (parseArgs (prog :: out :: s :: rest)).ctx.valid = false ∧
      (parseArgs (prog :: out :: s :: rest)).usageCalls = [false] := by
    rcases hbad with hs | ⟨v, pos, hs, hv⟩
    · simp [parseArgs, hcond, hs]
    · rcases hv with hv | hv
      · simp [parseArgs, hcond, hs, hv]
      · by_cases hv0 : v ≤ 0 <;> simp [parseArgs, hcond, hs, hv0, hv]
  refine ⟨⟨?_, ?_⟩, ⟨hinv.1, hinv.2, ?_, ?_⟩, by decide, by decide, by decide⟩
  · simp [parseArgs, hcond]
  · simp [parseArgs, hcond]
  · simp [main, hinv.1]
  · simp [main, hinv.1, NoIO]

/-- C9 witness: `sizeMB = "abc"` does not parse. -/
theorem claim_C9_witness :
    ((parseArgs ["sbench", "f"]).ctx.mb = 2048 ∧ (parseArgs ["sbench", "f"]).ctx.valid = true)
    ∧ ((parseArgs ["sbench", "f", "abc"]).ctx.valid = false
        ∧ (parseArgs ["sbench", "f", "abc"]).usageCalls = [false]
        ∧ (main envOk ["sbench", "f", "abc"]).exitCode = 1
        ∧ NoIO envOk (main envOk ["sbench", "f", "abc"]))
    ∧ ((main envOk ["sbench", "f", "abc"]).exitCode = 1
        ∧ (main envOk ["sbench", "f", "17592186044416"]).exitCode = 2
        ∧ (1 : Int) ≠ 2) :=
  claim_C9 envOk "sbench" "f" "abc" [] (by decide) (by decide) (Or.inl (by decide))

/-- C2 (amended): when the write phase completes without error and
without interruption, it writes exactly
`floor((sizeMB * 1MB mod 2^64) / bufferSize)` full buffers — the byte
total is computed in 64-bit `size_t` arithmetic. -/
theorem claim_C2 (e : Env) (p : Context) (clock : Nat)
    (hmono : MonoFlag e.intr) (hw : ∀ i, e.writeOk i = true)
    (_hpos : 1 ≤ p.mb)
    (hcode : (doWrite e p clock).code = 0) :
    (doWrite e p clock).written = p.mb * MB % W64 / BUFSZ :=
  doWrite_code_zero_written e p clock hmono hw hcode

/-- C2 witness: a 4-MB run in the all-succeeding environment. -/
theorem claim_C2_witness :
    (doWrite envOk { outfile := "f", mb := 4, valid := true, outfileCreated := false }
        0).written = 4 * MB % W64 / BUFSZ := by
  have h := claim_C2 envOk { outfile := "f", mb := 4, valid := true, outfileCreated := false }
    0 (fun i j _ hi => by simp [envOk] at hi) (fun i => rfl) (by decide) (by decide)
  simpa using h

/-- C2 counterexample: with `sizeMB = 2^44 + 1` the write phase
completes without error or interruption, yet writes 1 buffer, not the
`floor(sizeMB*1MB / bufferSize) = 2^44 + 1` buffers the claim states,
because the byte total wrapped modulo `2^64`. -/
theorem claim_C2_cex :
    (doWrite envOk { outfile := "f", mb := 2 ^ 44 + 1, valid := true, outfileCreated := false }
        0).code = 0
    ∧ ¬ (doWrite envOk
          { outfile := "f", mb := 2 ^ 44 + 1, valid := true, outfileCreated := false }
          0).written =
        (2 ^ 44 + 1) * MB / BUFSZ := by
  refine ⟨by decide, by decide⟩

/-- C1: whenever the output file was created, the cleanup action runs
exactly once at the end of `main`, whatever the exit path; the file is
gone afterwards exactly when `unlink` succeeded; a failed deletion is
reported on the diagnostic stream; and the run's exit code never
depends on how the cleanup went. -/
theorem claim_C1 (e : Env) (argv : List String)
    (h : (main e argv).fileCreated = true) :
    (main e argv).cleanupRuns = 1
    ∧ (main e argv).fileExists = !e.unlinkOk
    ∧ (main e argv).cleanupFailMsg = !e.unlinkOk
    ∧ ∀ b, (main { e with unlinkOk := b } argv).exitCode = (main e argv).exitCode := by
  by_cases hv : (parseArgs argv).ctx.valid = false
  · simp [main, hv] at h
  · have hoc := parseArgs_outfileCreated argv
    have hce : (doWrite e (parseArgs argv).ctx 0).ctx.outfileCreated = true := by
      by_cases hc : (doWrite e (parseArgs argv).ctx 0).code = 0 <;>
        simpa [main, hv, hc] using h
    obtain ⟨hfe, -⟩ := doWrite_created e (parseArgs argv).ctx 0 hoc hce
    refine ⟨?_, ?_, ?_, fun b => main_exit_unlink_irrel e b argv⟩ <;>
      by_cases hc : (doWrite e (parseArgs argv).ctx 0).code = 0 <;>
        cases hu : e.unlinkOk <;>
          simp [main, hv, hc, runCleanup, hce, hfe, hu]

/-- C1 witness: a successful 2-MB run in the all-succeeding
environment creates the file. -/
theorem claim_C1_witness :
    (main envOk ["sbench", "f", "2"]).cleanupRuns = 1
    ∧ (main envOk ["sbench", "f", "2"]).fileExists = !envOk.unlinkOk
    ∧ (main envOk ["sbench", "f", "2"]).cleanupFailMsg = !envOk.unlinkOk
    ∧ ∀ b, (main { envOk with unlinkOk := b } ["sbench", "f", "2"]).exitCode =
        (main envOk ["sbench", "f", "2"]).exitCode :=
  claim_C1 envOk ["sbench", "f", "2"] (by decide)

/-- C3: the phases run in the order write, cache-drop, read: the purge
command is invoked exactly when the write phase returned 0, the file is
opened for reading exactly when write and purge both succeeded and the
read-open succeeds, and the exit code is the write phase's nonzero
result, else the purge command's nonzero status, else the read phase's
result. -/
theorem claim_C3 (e : Env) (argv : List String)
    (hvalid : (parseArgs argv).ctx.valid = true) :
    (main e argv).purgeInvoked = decide ((doWrite e (parseArgs argv).ctx 0).code = 0)
    ∧ (main e argv).openedRead =
        (decide ((doWrite e (parseArgs argv).ctx 0).code = 0) &&
          (decide (e.purgeRes = 0) && e.openReadOk))
    ∧ (main e argv).exitCode =
        (if (doWrite e (parseArgs argv).ctx 0).code = 0 then
          (if e.purgeRes = 0 then
            (doRead e (doWrite e (parseArgs argv).ctx 0).clock
              ((doWrite e (parseArgs argv).ctx 0).written * BUFSZ) (contentFn e)).code
          else e.purgeRes)
        else (doWrite e (parseArgs argv).ctx 0).code) := by
  by_cases hc : (doWrite e (parseArgs argv).ctx 0).code = 0
  · refine ⟨?_, ?_, ?_⟩
    · simp [main, hvalid, hc]
    · simp [main, hvalid, hc,
        doRead_opened e (doWrite e (parseArgs argv).ctx 0).clock
          ((doWrite e (parseArgs argv).ctx 0).written * BUFSZ) (contentFn e)]
    · by_cases hp : e.purgeRes = 0
      · simp [main, hvalid, hc, hp]
      · have := doRead_purge_fail e (doWrite e (parseArgs argv).ctx 0).clock
          ((doWrite e (parseArgs argv).ctx 0).written * BUFSZ) (contentFn e) hp
        simp [main, hvalid, hc, hp, this.1]
  · refine ⟨?_, ?_, ?_⟩ <;> simp [main, hvalid, hc]

/-- C3 witness: a fully successful 2-MB run. -/
theorem claim_C3_witness :
    (main envOk ["sbench", "f", "2"]).purgeInvoked =
      decide ((doWrite envOk (parseArgs ["sbench", "f", "2"]).ctx 0).code = 0)
    ∧ (main envOk ["sbench", "f", "2"]).openedRead =
        (decide ((doWrite envOk (parseArgs ["sbench", "f", "2"]).ctx 0).code = 0) &&
          (decide (envOk.purgeRes = 0) && envOk.openReadOk))
    ∧ (main envOk ["sbench", "f", "2"]).exitCode =
        (if (doWrite envOk (parseArgs ["sbench", "f", "2"]).ctx 0).code = 0 then
          (if envOk.purgeRes = 0 then
            (doRead envOk (doWrite envOk (parseArgs ["sbench", "f", "2"]).ctx 0).clock
              ((doWrite envOk (parseArgs ["sbench", "f", "2"]).ctx 0).written * BUFSZ)
              (contentFn envOk)).code
          else envOk.purgeRes)
        else (doWrite envOk (parseArgs ["sbench", "f", "2"]).ctx 0).code) :=
  claim_C3 envOk ["sbench", "f", "2"] (by decide)

/-- C4: if the interrupt flag is set by observation tick `n + 1` —
i.e. the signal landed once `n` of the `M` buffer writes were done —
and `n < M`, the write phase performs at most one further buffer write
(`written ≤ n + 1`), the run exits with the distinguished code 99 at
the interrupted return site, the purge command and the read phase are
skipped, and the cleanup guard still removes the partial file
(it remains only if `unlink` fails). -/
theorem claim_C4 (e : Env) (argv : List String) (n : Nat)
    (hmono : MonoFlag e.intr) (hintr : e.intr (n + 1) = true)
    (hvalid : (parseArgs argv).ctx.valid = true)
    (hN : BUFSZ ≤ (parseArgs argv).ctx.mb * MB % W64)
    (hnM : n < (parseArgs argv).ctx.mb * MB % W64 / BUFSZ)
    (hopen : e.openWriteOk = true) (hw : ∀ i, e.writeOk i = true)
    (hfc : e.flushCloseOk = true) :
    (main e argv).exitCode = 99
    ∧ (main e argv).outcome = OutcomeK.interrupted
    ∧ (main e argv).written ≤ n + 1
    ∧ (main e argv).purgeInvoked = false
    ∧ (main e argv).openedRead = false
    ∧ (main e argv).fileCreated = true
    ∧ (main e argv).cleanupRuns = 1
    ∧ (main e argv).fileExists = !e.unlinkOk := by
  obtain ⟨h99, hout, hbound, hcre, hfe⟩ :=
    doWrite_interrupted e (parseArgs argv).ctx (n + 1) hmono hintr hnM hopen hw hfc hN
  have hc : ¬ (doWrite e (parseArgs argv).ctx 0).code = 0 := by simp [h99]
  refine ⟨?_, ?_, ?_, ?_, ?_, ?_, ?_, ?_⟩ <;>
    cases hu : e.unlinkOk <;>
      simp [main, hvalid, hc, h99, hout, hbound, runCleanup, hcre, hfe, hu]

/-- C4 witness: flag raised at tick 1 of a 3-MB run: the phase stops
after at most one write past the signal. -/
theorem claim_C4_witness :
    (main { envOk with intr := fun t => decide (0 < t) } ["sbench", "f", "3"]).exitCode = 99
    ∧ (main { envOk with intr := fun t => decide (0 < t) } ["sbench", "f", "3"]).outcome =
        OutcomeK.interrupted
    ∧ (main { envOk with intr := fun t => decide (0 < t) } ["sbench", "f", "3"]).written ≤ 0 + 1
    ∧ (main { envOk with intr := fun t => decide (0 < t) } ["sbench", "f", "3"]).purgeInvoked = false
    ∧ (main { envOk with intr := fun t => decide (0 < t) } ["sbench", "f", "3"]).openedRead = false
    ∧ (main { envOk with intr := fun t => decide (0 < t) } ["sbench", "f", "3"]).fileCreated = true
    ∧ (main { envOk with intr := fun t => decide (0 < t) } ["sbench", "f", "3"]).cleanupRuns = 1
    ∧ (main { envOk with intr := fun t => decide (0 < t) } ["sbench", "f", "3"]).fileExists =
        !({ envOk with intr := fun t => decide (0 < t) } : Env).unlinkOk :=
  claim_C4 { envOk with intr := fun t => decide (0 < t) } ["sbench", "f", "3"] 0
    (fun i j hij hi => by simp at hi ⊢; omega) (by simp) (by decide) (by decide) (by decide)
    (by decide) (fun i => rfl) (by decide)

theorem main_outcome_usage_noIO (e : Env) (argv : List String)
    (h : (main e argv).outcome = OutcomeK.usage) :
    (main e argv).openedWrite = false ∧ (main e argv).openedRead = false ∧
      (main e argv).purgeInvoked = false ∧ (main e argv).fileCreated = false := by
  by_cases hv : (parseArgs argv).ctx.valid = false
  · simp [main, hv]
  by_cases hc : (doWrite e (parseArgs argv).ctx 0).code = 0
  · exfalso
    rcases (doRead_shape e (doWrite e (parseArgs argv).ctx 0).clock
        ((doWrite e (parseArgs argv).ctx 0).written * BUFSZ) (contentFn e)).2 with
      ho | ho | ho | ho | ho | ho <;>
      simp [main, hv, hc, ho] at h
  · exfalso
    rcases (doWrite_shape e (parseArgs argv).ctx 0 e.purgeRes).2 with ho | ho | ho | ho <;>
      simp [main, hv, hc, ho] at h

theorem main_outcome_writeErr_noRead (e : Env) (argv : List String)
    (h : (main e argv).outcome = OutcomeK.writeErr) :
    (main e argv).openedRead = false := by
  by_cases hv : (parseArgs argv).ctx.valid = false
  · simp [main, hv] at h
  by_cases hc : (doWrite e (parseArgs argv).ctx 0).code = 0
  · exfalso
    rcases (doRead_shape e (doWrite e (parseArgs argv).ctx 0).clock
        ((doWrite e (parseArgs argv).ctx 0).written * BUFSZ) (contentFn e)).2 with
      ho | ho | ho | ho | ho | ho <;>
      simp [main, hv, hc, ho] at h
  · simp [main, hv, hc]

/-- C5: every run's exit code is the one of its terminal outcome, and
the listed outcome kinds carry the pairwise distinct codes 0 (success),
1 (bad arguments, with no I/O performed), 2 (invalid size), 3
(write/open error, with the read phase never reached), 10 (read-open
error), 11 (cache-disable error), 20 (read-produced-no-data), 99
(interrupted). -/
theorem claim_C5 (e : Env) (argv : List String) :
    (main e argv).exitCode = outcomeCode e.purgeRes (main e argv).outcome
    ∧ (((main e argv).outcome == OutcomeK.usage) &&
        ((main e argv).openedWrite || (main e argv).openedRead ||
          (main e argv).purgeInvoked || (main e argv).fileCreated)) = false
    ∧ (((main e argv).outcome == OutcomeK.writeErr) && (main e argv).openedRead) = false
    ∧ List.Nodup [(0 : Int), 1, 2, 3, 10, 11, 20, 99]
    ∧ outcomeCode e.purgeRes OutcomeK.success = 0
    ∧ outcomeCode e.purgeRes OutcomeK.usage = 1
    ∧ outcomeCode e.purgeRes OutcomeK.badSize = 2
    ∧ outcomeCode e.purgeRes OutcomeK.writeErr = 3
    ∧ outcomeCode e.purgeRes OutcomeK.readOpen = 10
    ∧ outcomeCode e.purgeRes OutcomeK.cacheDisable = 11
    ∧ outcomeCode e.purgeRes OutcomeK.readNoData = 20
    ∧ outcomeCode e.purgeRes OutcomeK.interrupted = 99 := by
  refine ⟨?_, ?_, ?_, by decide, rfl, rfl, rfl, rfl, rfl, rfl, rfl, rfl⟩
  · by_cases hv : (parseArgs argv).ctx.valid = false
    · simp [main, hv, outcomeCode]
    by_cases hc : (doWrite e (parseArgs argv).ctx 0).code = 0
    · simp only [main, hv, Bool.false_eq_true, ite_false, hc, ite_true, ne_eq,
        not_true_eq_false]
      exact (doRead_shape e (doWrite e (parseArgs argv).ctx 0).clock
        ((doWrite e (parseArgs argv).ctx 0).written * BUFSZ) (contentFn e)).1
    · simp only [main, hv, Bool.false_eq_true, ite_false, hc, ne_eq, not_false_eq_true,
        ite_true]
      exact (doWrite_shape e (parseArgs argv).ctx 0 e.purgeRes).1
  · by_cases ho : (main e argv).outcome = OutcomeK.usage
    · obtain ⟨h1, h2, h3, h4⟩ := main_outcome_usage_noIO e argv ho
      simp [ho, h1, h2, h3, h4]
    · simp [ho]
  · by_cases ho : (main e argv).outcome = OutcomeK.writeErr
    · simp [ho, main_outcome_writeErr_noRead e argv ho]
    · simp [ho]

/-- C7 counterexample: at `sizeMB = 2^44 + 1` the write, cache-drop,
cache-disable and read steps all succeed and no interruption occurs
(the run exits 0), yet the read phase reads back `BUFSZ` bytes (one
buffer), not the `floor(sizeMB*1MB / bufferSize) * bufferSize =
(2^44+1)*1MB` bytes the claim states: the byte total wrapped modulo
`2^64` before the write, exactly as in C2. -/
theorem claim_C7_cex :
    (parseArgs ["sbench", "f", "17592186044417"]).ctx.mb = 2 ^ 44 + 1
    ∧ (main envOk ["sbench", "f", "17592186044417"]).exitCode = 0
    ∧ (main envOk ["sbench", "f", "17592186044417"]).readCount = BUFSZ
    ∧ (2 ^ 44 + 1) * MB / BUFSZ * BUFSZ = (2 ^ 44 + 1) * MB
    ∧ ¬ (main envOk ["sbench", "f", "17592186044417"]).readCount =
        (2 ^ 44 + 1) * MB / BUFSZ * BUFSZ := by
  refine ⟨by decide, by decide, by decide, by decide, by decide⟩

/-- C7 (amended): in a run where write, cache-drop, cache-disable and
every read succeed and no signal ever arrives, the read phase reads
back exactly the buffer-aligned written size —
`floor((sizeMB*1MB mod 2^64) / bufferSize) * bufferSize` bytes, the
byte total being computed in 64-bit `size_t` arithmetic — and the
bytes read equal the bytes written; the run exits 0. -/
theorem claim_C7 (e : Env) (argv : List String)
    (hintr : ∀ t, e.intr t = false)
    (hopen : e.openWriteOk = true) (hw : ∀ i, e.writeOk i = true)
    (hfc : e.flushCloseOk = true) (hpurge : e.purgeRes = 0)
    (hor : e.openReadOk = true) (hfcn : e.fcntlRes = 0)
    (herr : ∀ t, e.readErr t = false)
    (hvalid : (parseArgs argv).ctx.valid = true)
    (hN : BUFSZ ≤ (parseArgs argv).ctx.mb * MB % W64) :
    (main e argv).readCount = (parseArgs argv).ctx.mb * MB % W64 / BUFSZ * BUFSZ
    ∧ (main e argv).readCount = (main e argv).written * BUFSZ
    ∧ (main e argv).dataRead = writtenBytes e ((main e argv).written)
    ∧ (main e argv).exitCode = 0 := by
  have hwr := doWrite_all_ok e (parseArgs argv).ctx 0 hintr hopen hw hfc hN
  have hM1 : 1 ≤ (parseArgs argv).ctx.mb * MB % W64 / BUFSZ :=
    (Nat.one_le_div_iff bufsz_pos).mpr hN
  have hlen : (parseArgs argv).ctx.mb * MB % W64 / BUFSZ * BUFSZ ≠ 0 := by
    have := bufsz_pos
    positivity
  obtain ⟨hrc, hcount, hdata⟩ := doRead_all_ok e
    (0 + (parseArgs argv).ctx.mb * MB % W64 / BUFSZ + 1)
    ((parseArgs argv).ctx.mb * MB % W64 / BUFSZ * BUFSZ) (contentFn e)
    hintr hpurge hor hfcn herr hlen
  simp only [Nat.zero_add] at hrc hcount hdata
  have hc : (doWrite e (parseArgs argv).ctx 0).code = 0 := by rw [hwr]
  refine ⟨?_, ?_, ?_, ?_⟩ <;>
    simp [main, hvalid, hc, hwr, hcount, hdata, hrc, writtenBytes]

/-- C7 witness: a fully successful 2-MB run. -/
theorem claim_C7_witness :
    (main envOk ["sbench", "f", "2"]).readCount =
      (parseArgs ["sbench", "f", "2"]).ctx.mb * MB % W64 / BUFSZ * BUFSZ
    ∧ (main envOk ["sbench", "f", "2"]).readCount =
        (main envOk ["sbench", "f", "2"]).written * BUFSZ
    ∧ (main envOk ["sbench", "f", "2"]).dataRead =
        writtenBytes envOk ((main envOk ["sbench", "f", "2"]).written)
    ∧ (main envOk ["sbench", "f", "2"]).exitCode = 0 :=
  claim_C7 envOk ["sbench", "f", "2"] (fun t => rfl) (by decide) (fun i => rfl) (by decide)
    (by decide) (by decide) (by decide) (fun t => rfl) (by decide) (by decide)

end SBench
